import Mathlib

/-
Verification of the `pipeline` repository (Go): a directory-scanning
processing pipeline.  The definitions below are a shallow embedding of the
Go sources:

  * `pipeline/pipeline.go`          : `Status`, `Pipeline`, `New`, `Start`,
                                      `Abort`, `Stop` and the field setters.
  * `pipeline/loadPathsToChannel.go`: the walker goroutine built on
                                      `godirwalk.Walk`.
  * `cmd/Start.go`                  : the CLI constants, `validateCommandLine`
                                      and the `start` action.

Go `uint64` parameters are modelled as `Nat`: the program performs no
arithmetic on them (only comparisons against constant ceilings), so no
wrap-around can occur.  Channels are modelled by their capacity in the
`Pipeline` record and by an explicit small-step system for `Start`.
-/

namespace PipelineModel

/-- The pipeline states, in the order of the Go `iota` block
(`Aborting = 0` is therefore the zero value of the type). -/
inductive Status where
  | Aborting
  | Starting
  | Running
  | Stopping
  | Stopped
deriving DecidableEq

/-- Shallow model of Go `time.Time`: an instant plus a location name.
The zero value of `time.Time` has location UTC. -/
structure GoTime where
  seconds : Int
  location : String
deriving DecidableEq

/-- `Zero()` from the external go-helpers time package: the zero
`time.Time`, whose location is UTC. -/
def TimeZero : GoTime := ⟨0, "UTC"⟩

/-- `CleanStringForPlatform` is an external go-helpers collaborator that
normalizes a string for the platform.  It is modelled as the identity;
no claim below depends on the normalization it performs. -/
def CleanStringForPlatform (s : String) : String := s

/-- The `Pipeline` struct of `pipeline.go`.  The two channel fields are
modelled by the capacity each channel was created with (`make(chan string,
pathChanSize)` and the unbuffered `make(chan bool)`). -/
structure Pipeline where
  startedUtc : GoTime
  endedUtc : GoTime
  status : Status
  path : String
  scannerBufferSize : Nat
  pathChanSize : Nat
  pathConsumerCount : Nat
  pathsChannelCap : Nat
  commandChannelCap : Nat
deriving DecidableEq

/-- The zero value `&Pipeline{}` allocated at the top of `New`
(numeric fields 0, empty string, `Status(0) = Aborting`, zero times). -/
def zeroPipeline : Pipeline :=
  ⟨TimeZero, TimeZero, .Aborting, "", 0, 0, 0, 0, 0⟩

/-- `setPath`: rejects an empty path, then stores the cleaned path. -/
def setPath (p : Pipeline) (path : String) : Except String Pipeline :=
  if path = "" then .error "the path cannot be empty"
  else .ok { p with path := CleanStringForPlatform path }

/-- `setScannerBufferSize`: stores the value, never fails. -/
def setScannerBufferSize (p : Pipeline) (n : Nat) : Except String Pipeline :=
  .ok { p with scannerBufferSize := n }

/-- `setPathChanSize`: stores the value, never fails. -/
def setPathChanSize (p : Pipeline) (n : Nat) : Except String Pipeline :=
  .ok { p with pathChanSize := n }

/-- `setPathConsumerCount`: stores the value, never fails. -/
def setPathConsumerCount (p : Pipeline) (n : Nat) : Except String Pipeline :=
  .ok { p with pathConsumerCount := n }

/-- `setEndedUtc`: requires the time's location to be UTC. -/
def setEndedUtc (p : Pipeline) (t : GoTime) : Except String Pipeline :=
  if CleanStringForPlatform t.location = "UTC" then .ok { p with endedUtc := t }
  else .error "the endedUtc value must be in UTC"

/-- `setStartedUtc`: requires the time's location to be UTC. -/
def setStartedUtc (p : Pipeline) (t : GoTime) : Except String Pipeline :=
  if CleanStringForPlatform t.location = "UTC" then .ok { p with startedUtc := t }
  else .error "the startedUtc value must be in UTC"

/-- `setStatus`: stores the status, never fails. -/
def setStatus (p : Pipeline) (s : Status) : Except String Pipeline :=
  .ok { p with status := s }

/-- `setPathsChannel`: records the capacity of the freshly made paths
channel. -/
def setPathsChannel (p : Pipeline) (cap : Nat) : Except String Pipeline :=
  .ok { p with pathsChannelCap := cap }

/-- `setCommandChannel`: records the capacity of the freshly made command
channel (unbuffered). -/
def setCommandChannel (p : Pipeline) (cap : Nat) : Except String Pipeline :=
  .ok { p with commandChannelCap := cap }

/-- The factory `New` of `pipeline.go`: chains the setters in source
order.  Note that it performs no ceiling checks on the three numeric
bounds; the only validation that can fail on caller input is the
empty-path check in `setPath`. -/
def New (path : String) (scannerBufferSize pathChanSize pathConsumerCount : Nat) :
    Except String Pipeline := do
  let p := zeroPipeline
  let p ← setPath p path
  let p ← setScannerBufferSize p scannerBufferSize
  let p ← setPathChanSize p pathChanSize
  let p ← setPathConsumerCount p pathConsumerCount
  let p ← setEndedUtc p TimeZero
  let p ← setStatus p .Stopped
  let p ← setPathsChannel p p.pathChanSize
  let p ← setCommandChannel p 0
  return p

/-- `kMaxScannerBufferSize` from `cmd/Start.go` (1000 KiB). -/
def kMaxScannerBufferSize : Nat := 1000 * 1024

/-- `kMaxPathsChannelSize` from `cmd/Start.go`. -/
def kMaxPathsChannelSize : Nat := 256

/-- `kMaxPathConsumerCount` from `cmd/Start.go`. -/
def kMaxPathConsumerCount : Nat := 50

/-- `validateCommandLine` from `cmd/Start.go`: the switch over the four
command-line values, in source order. -/
def validateCommandLine (path : String)
    (scannerBufferSize pathChanSize pathConsumerCount : Nat) : Option String :=
  if path = "" then
    some "there must be a path to the directory containing files to process"
  else if scannerBufferSize > kMaxScannerBufferSize then
    some "the maximum scanner buffer size cannot be exceeded"
  else if pathChanSize > kMaxPathsChannelSize then
    some "the maximum number of paths in the channel cannot be exceeded"
  else if pathConsumerCount > kMaxPathConsumerCount then
    some "the maximum number of goroutine consumers cannot be exceeded"
  else none

/-- The `start` action of `cmd/Start.go` up to pipeline construction:
`validateCommandLine` first, and only when it succeeds is `New` invoked
(`APipeline.Start()` is only reached on an `ok` result; its behaviour is
modelled by the step system below). -/
def cmdStart (path : String)
    (scannerBufferSize pathChanSize pathConsumerCount : Nat) :
    Except String Pipeline :=
  match validateCommandLine path scannerBufferSize pathChanSize pathConsumerCount with
  | some e => .error e
  | none => New path scannerBufferSize pathChanSize pathConsumerCount

/-- A directory tree node, as seen by `godirwalk.Walk`: regular files,
directories with an ordered child list (the walk is `Unsorted`, so the
list order stands for whatever order the OS returns), and symbolic links
(which are never followed and are not regular). -/
inductive FSNode where
  | file (name : String)
  | dir (name : String) (children : List FSNode)
  | symlink (name : String)

/-- The basename of a node, i.e. `de.Name()` of its dirent. -/
def FSNode.name : FSNode → String
  | .file n => n
  | .dir n _ => n
  | .symlink n => n

/-- `filepath.Join` on two clean, non-empty operands. -/
def Join (a b : String) : String := a ++ "/" ++ b

/-- The operations the walker goroutine of `loadPathsToChannel.go`
performs on the shared synchronization structures, in program order:
receive from the command channel, `wg.Add(1)`, send a path on the paths
channel, and the deferred `wg.Done()`. -/
inductive WOp where
  | recvCmd
  | add
  | send (path : String)
  | done
deriving DecidableEq

mutual

/-- The operations the `godirwalk.Walk` callback performs for the node at
full path `osPath`.  The callback receives the full pathname `osPath` and
the dirent; for a regular file it runs `wg.Add(1)` and then sends
`Join(osPath, de.Name())` — note the basename is appended to a pathname
that already ends in it, exactly as in the source.  Directories and
symlinks emit nothing themselves; the walk recurses into directory
children (at `Join(osPath, child.name)`), never into symlinks. -/
def walkEvents : String → FSNode → List WOp
  | osPath, .file nm => [.add, .send (Join osPath nm)]
  | _, .symlink _ => []
  | osPath, .dir _ cs => walkEventsList osPath cs

/-- The callback events of the children of a directory at `osPath`,
in child order. -/
def walkEventsList : String → List FSNode → List WOp
  | _, [] => []
  | osPath, c :: cs => walkEvents (Join osPath c.name) c ++ walkEventsList osPath cs

end

mutual

/-- The paths actually sent on the paths channel by the walk rooted at
`osPath` (mirrors the `send` operations of `walkEvents`). -/
def sentPaths : String → FSNode → List String
  | osPath, .file nm => [Join osPath nm]
  | _, .symlink _ => []
  | osPath, .dir _ cs => sentPathsList osPath cs

/-- The sent paths of the children of a directory at `osPath`. -/
def sentPathsList : String → List FSNode → List String
  | _, [] => []
  | osPath, c :: cs => sentPaths (Join osPath c.name) c ++ sentPathsList osPath cs

end

mutual

/-- The true full paths of the regular files under the node at `osPath`
(what the spec says each WorkItem should be). -/
def regularPaths : String → FSNode → List String
  | osPath, .file _ => [osPath]
  | _, .symlink _ => []
  | osPath, .dir _ cs => regularPathsList osPath cs

/-- The regular-file paths of the children of a directory at `osPath`. -/
def regularPathsList : String → List FSNode → List String
  | _, [] => []
  | osPath, c :: cs => regularPaths (Join osPath c.name) c ++ regularPathsList osPath cs

end

/-- The per-file operation block of the walker callback: for each
emitted path, first `wg.Add(1)`, then the channel send. -/
def sendBlocks (ps : List String) : List WOp :=
  (ps.map fun x => [WOp.add, WOp.send x]).flatten

theorem sendBlocks_append (a b : List String) :
    sendBlocks (a ++ b) = sendBlocks a ++ sendBlocks b := by
  simp [sendBlocks]

mutual

theorem walkEvents_eq_sendBlocks (osPath : String) (n : FSNode) :
    walkEvents osPath n = sendBlocks (sentPaths osPath n) := by
  cases n with
  | file nm => simp [walkEvents, sentPaths, sendBlocks]
  | symlink nm => simp [walkEvents, sentPaths, sendBlocks]
  | dir nm cs =>
      simpa [walkEvents, sentPaths] using walkEventsList_eq_sendBlocks osPath cs

theorem walkEventsList_eq_sendBlocks (osPath : String) (cs : List FSNode) :
    walkEventsList osPath cs = sendBlocks (sentPathsList osPath cs) := by
  cases cs with
  | nil => simp [walkEventsList, sentPathsList, sendBlocks]
  | cons c cs =>
      rw [walkEventsList, sentPathsList, sendBlocks_append,
        walkEvents_eq_sendBlocks (Join osPath c.name) c,
        walkEventsList_eq_sendBlocks osPath cs]

end

mutual

theorem sentPaths_length (osPath : String) (n : FSNode) :
    (sentPaths osPath n).length = (regularPaths osPath n).length := by
  cases n with
  | file nm => simp [sentPaths, regularPaths]
  | symlink nm => simp [sentPaths, regularPaths]
  | dir nm cs => simpa [sentPaths, regularPaths] using sentPathsList_length osPath cs

theorem sentPathsList_length (osPath : String) (cs : List FSNode) :
    (sentPathsList osPath cs).length = (regularPathsList osPath cs).length := by
  cases cs with
  | nil => simp [sentPathsList, regularPathsList]
  | cons c cs =>
      simp only [sentPathsList, regularPathsList, List.length_append]
      rw [sentPaths_length (Join osPath c.name) c, sentPathsList_length osPath cs]

end

/-- The number of `wg.Add(1)` operations in a walker operation list. -/
def countAdds : List WOp → Nat
  | [] => 0
  | .add :: l => countAdds l + 1
  | _ :: l => countAdds l

/-- The number of channel sends in a walker operation list. -/
def countSends : List WOp → Nat
  | [] => 0
  | .send _ :: l => countSends l + 1
  | _ :: l => countSends l

theorem sendBlocks_take_counts (ps : List String) :
    ∀ k, countSends ((sendBlocks ps).take k) ≤ countAdds ((sendBlocks ps).take k) := by
  induction ps with
  | nil => intro k; simp [sendBlocks, countSends, countAdds]
  | cons x ps ih =>
      intro k
      have hx : sendBlocks (x :: ps) = .add :: .send x :: sendBlocks ps := by
        simp [sendBlocks]
      rw [hx]
      match k with
      | 0 => simp [countSends, countAdds]
      | 1 => simp [countSends, countAdds]
      | (j + 2) =>
          simp only [List.take, countSends, countAdds]
          have := ih j
          omega

/-- Program counter of the calling goroutine inside `Pipeline.Start`:
about to send on the command channel; in the `for path := range
p.PathsChannel()` loop; in `wg.Wait()`; or at `return nil`. -/
inductive MainPC where
  | sendCmd
  | loop
  | wait
  | ret
deriving DecidableEq

/-- Global state of one run of `Pipeline.Start`:
remaining walker operations, the caller's program counter, the paths
channel (buffer contents and closed flag — note no statement in the
sources ever closes it), the WaitGroup counter (an `Int`; Go panics as
soon as it would go negative), the number of consumer goroutines spawned
by the range loop that are still running, and `Start`'s returned value
once it returns (`some none` would be `return nil`). -/
structure Sys where
  wOps : List WOp
  mPC : MainPC
  buf : List String
  closed : Bool
  wg : Int
  active : Nat
  result : Option (Option String)
deriving DecidableEq

/-- Labels naming the atomic interleaved steps of the `Start` system. -/
inductive Lab where
  | handshake
  | wAdd
  | wSend
  | rendezvous
  | wDone
  | recvSpawn
  | loopExit
  | waitRet
  | cFinish
deriving DecidableEq

/-- Interleaved small-step semantics of `Pipeline.Start` together with
the walker goroutine it spawns, translated from `pipeline.go` lines
260-283 and `loadPathsToChannel.go`:

* `handshake`  : the unbuffered command-channel send `p.CommandChannel()
  <- true` meets the walker's `<-commandChannel`.
* `wAdd`       : the walker's `wg.Add(1)` for a regular file.
* `wSend`      : the walker's buffered channel send, enabled while the
  buffer holds fewer than `pathsChannelCap` items.
* `rendezvous` : the degenerate capacity-0 channel handoff directly to a
  receive by the range loop.
* `wDone`      : the walker's deferred `wg.Done()` after the walk.
* `recvSpawn`  : the range loop receives a buffered path and spawns a
  consumer goroutine (`go func() { fmt.Printf(...) }()`).
* `loopExit`   : the range loop terminates — in Go this requires the
  channel to be closed and drained.
* `waitRet`    : `wg.Wait()` returns once the counter is zero and
  `Start` executes `return nil`.
* `cFinish`    : a spawned consumer goroutine finishes its `Printf`;
  its body contains no `wg.Done()`. -/
inductive Step (p : Pipeline) : Lab → Sys → Sys → Prop where
  | handshake (rest : List WOp) (buf : List String) (cl : Bool) (wg : Int)
      (a : Nat) (r : Option (Option String)) :
      Step p .handshake ⟨.recvCmd :: rest, .sendCmd, buf, cl, wg, a, r⟩
        ⟨rest, .loop, buf, cl, wg, a, r⟩
  | wAdd (rest : List WOp) (m : MainPC) (buf : List String) (cl : Bool)
      (wg : Int) (a : Nat) (r : Option (Option String)) :
      Step p .wAdd ⟨.add :: rest, m, buf, cl, wg, a, r⟩
        ⟨rest, m, buf, cl, wg + 1, a, r⟩
  | wSend (x : String) (rest : List WOp) (m : MainPC) (buf : List String)
      (cl : Bool) (wg : Int) (a : Nat) (r : Option (Option String))
      (h : buf.length < p.pathsChannelCap) :
      Step p .wSend ⟨.send x :: rest, m, buf, cl, wg, a, r⟩
        ⟨rest, m, buf ++ [x], cl, wg, a, r⟩
  | rendezvous (x : String) (rest : List WOp) (cl : Bool) (wg : Int)
      (a : Nat) (r : Option (Option String)) (h : p.pathsChannelCap = 0) :
      Step p .rendezvous ⟨.send x :: rest, .loop, [], cl, wg, a, r⟩
        ⟨rest, .loop, [], cl, wg, a + 1, r⟩
  | wDone (rest : List WOp) (m : MainPC) (buf : List String) (cl : Bool)
      (wg : Int) (a : Nat) (r : Option (Option String)) :
      Step p .wDone ⟨.done :: rest, m, buf, cl, wg, a, r⟩
        ⟨rest, m, buf, cl, wg - 1, a, r⟩
  | recvSpawn (ops : List WOp) (x : String) (bs : List String) (cl : Bool)
      (wg : Int) (a : Nat) (r : Option (Option String)) :
      Step p .recvSpawn ⟨ops, .loop, x :: bs, cl, wg, a, r⟩
        ⟨ops, .loop, bs, cl, wg, a + 1, r⟩
  | loopExit (ops : List WOp) (wg : Int) (a : Nat) (r : Option (Option String)) :
      Step p .loopExit ⟨ops, .loop, [], true, wg, a, r⟩
        ⟨ops, .wait, [], true, wg, a, r⟩
  | waitRet (ops : List WOp) (buf : List String) (cl : Bool) (a : Nat)
      (r : Option (Option String)) :
      Step p .waitRet ⟨ops, .wait, buf, cl, 0, a, r⟩
        ⟨ops, .ret, buf, cl, 0, a, some none⟩
  | cFinish (ops : List WOp) (m : MainPC) (buf : List String) (cl : Bool)
      (wg : Int) (a : Nat) (r : Option (Option String)) :
      Step p .cFinish ⟨ops, m, buf, cl, wg, a + 1, r⟩
        ⟨ops, m, buf, cl, wg, a, r⟩

/-- Zero or more interleaved steps. -/
inductive Reach (p : Pipeline) : Sys → Sys → Prop where
  | refl (s : Sys) : Reach p s s
  | head {s t u : Sys} (l : Lab) (h1 : Step p l s t) (h2 : Reach p t u) :
      Reach p s u

/-- The whole operation sequence of the walker goroutine
`loadPathsToChannel`: first the blocking receive from the command
channel, then the `godirwalk.Walk` callback operations, then the
deferred `wg.Done()`. -/
def loadPathsToChannelOps (path : String) (tree : FSNode) : List WOp :=
  .recvCmd :: (walkEvents path tree ++ [.done])

/-- The state at the top of `Pipeline.Start` on a pipeline `p` whose
root directory holds `tree`: the walker goroutine has been spawned
(blocked on the command channel), `var wg sync.WaitGroup` is zero, the
paths channel is empty and open, no consumer exists, and `Start` has not
returned. -/
def initSys (p : Pipeline) (tree : FSNode) : Sys :=
  ⟨loadPathsToChannelOps p.path tree, .sendCmd, [], false, 0, 0, none⟩

/-- The state at the top of `Pipeline.Start` when the root path itself
cannot be opened: `godirwalk.Walk` fails on the root before any callback
runs and its returned error is discarded by `loadPathsToChannel`, so the
walker performs only the command-channel receive and the deferred
`wg.Done()`. -/
def initRootFail (p : Pipeline) : Sys :=
  ⟨[.recvCmd, .done], .sendCmd, [], false, 0, 0, none⟩

/-- Control invariant of every run: no statement ever closes the paths
channel, hence the range loop never exits, hence `Start` never reaches
`wg.Wait()` nor `return nil`. -/
def CtrlInv (s : Sys) : Prop :=
  s.closed = false ∧ (s.mPC = .sendCmd ∨ s.mPC = .loop) ∧ s.result = none

theorem step_ctrlInv {p : Pipeline} {l : Lab} {s t : Sys}
    (h : Step p l s t) (hs : CtrlInv s) : CtrlInv t := by
  cases h <;> simp_all [CtrlInv]

theorem reach_ctrlInv {p : Pipeline} {s u : Sys}
    (h : Reach p s u) (hs : CtrlInv s) : CtrlInv u := by
  induction h with
  | refl s => exact hs
  | head l h1 h2 ih => exact ih (step_ctrlInv h1 hs)

theorem initSys_ctrlInv (p : Pipeline) (tree : FSNode) :
    CtrlInv (initSys p tree) := by
  simp [CtrlInv, initSys]

theorem initRootFail_ctrlInv (p : Pipeline) : CtrlInv (initRootFail p) := by
  simp [CtrlInv, initRootFail]

/-- Invariant of a run whose walker never sends: the paths channel stays
empty and no consumer goroutine is ever spawned. -/
def NoSendInv (s : Sys) : Prop :=
  (∀ x, WOp.send x ∉ s.wOps) ∧ s.buf = [] ∧ s.active = 0

theorem step_noSendInv {p : Pipeline} {l : Lab} {s t : Sys}
    (h : Step p l s t) (hs : NoSendInv s) : NoSendInv t := by
  obtain ⟨h1, h2, h3⟩ := hs
  cases h with
  | handshake rest buf cl wg a r =>
      exact ⟨fun x hx => h1 x (List.mem_cons_of_mem _ hx), h2, h3⟩
  | wAdd rest m buf cl wg a r =>
      exact ⟨fun x hx => h1 x (List.mem_cons_of_mem _ hx), h2, h3⟩
  | wSend x rest m buf cl wg a r hlt =>
      exact (h1 x (List.mem_cons_self _ _)).elim
  | rendezvous x rest cl wg a r h0 =>
      exact (h1 x (List.mem_cons_self _ _)).elim
  | wDone rest m buf cl wg a r =>
      exact ⟨fun x hx => h1 x (List.mem_cons_of_mem _ hx), h2, h3⟩
  | recvSpawn ops x bs cl wg a r => simp at h2
  | loopExit ops wg a r => exact ⟨h1, h2, h3⟩
  | waitRet ops buf cl a r => exact ⟨h1, h2, h3⟩
  | cFinish ops m buf cl wg a r => simp at h3

theorem reach_noSendInv {p : Pipeline} {s u : Sys}
    (h : Reach p s u) (hs : NoSendInv s) : NoSendInv u := by
  induction h with
  | refl s => exact hs
  | head l h1 h2 ih => exact ih (step_noSendInv h1 hs)

theorem initRootFail_noSendInv (p : Pipeline) : NoSendInv (initRootFail p) := by
  refine ⟨?_, rfl, rfl⟩
  intro x hx
  simp [initRootFail] at hx

/-- Transporting a step to another pipeline with the same paths-channel
capacity: the step relation reads nothing else from the pipeline. -/
theorem step_congr {p q : Pipeline} (hpq : p.pathsChannelCap = q.pathsChannelCap)
    {l : Lab} {s t : Sys} (h : Step p l s t) : Step q l s t := by
  cases h with
  | handshake rest buf cl wg a r => exact Step.handshake rest buf cl wg a r
  | wAdd rest m buf cl wg a r => exact Step.wAdd rest m buf cl wg a r
  | wSend x rest m buf cl wg a r hlt =>
      exact Step.wSend x rest m buf cl wg a r (hpq ▸ hlt)
  | rendezvous x rest cl wg a r h0 =>
      exact Step.rendezvous x rest cl wg a r (hpq ▸ h0)
  | wDone rest m buf cl wg a r => exact Step.wDone rest m buf cl wg a r
  | recvSpawn ops x bs cl wg a r => exact Step.recvSpawn ops x bs cl wg a r
  | loopExit ops wg a r => exact Step.loopExit ops wg a r
  | waitRet ops buf cl a r => exact Step.waitRet ops buf cl a r
  | cFinish ops m buf cl wg a r => exact Step.cFinish ops m buf cl wg a r

theorem reach_congr {p q : Pipeline} (hpq : p.pathsChannelCap = q.pathsChannelCap)
    {s u : Sys} (h : Reach p s u) : Reach q s u := by
  induction h with
  | refl s => exact Reach.refl s
  | head l h1 h2 ih => exact Reach.head l (step_congr hpq h1) ih

/-- A pipeline as produced by `New "/r" 65536 100 20` (the CLI default
buffer, queue and consumer-count values). -/
def pA : Pipeline := ⟨TimeZero, TimeZero, .Stopped, "/r", 65536, 100, 20, 100, 0⟩

theorem New_pA : New "/r" 65536 100 20 = Except.ok pA := rfl

/-- A root directory holding a single regular file `a`. -/
def treeA : FSNode := .dir "r" [.file "a"]

/-- The state of the `Start` system on `pA`/`treeA` after all work is
done: the walker has finished and signalled its deferred `wg.Done()`,
the single path was received and its consumer goroutine finished, the
buffer is drained — yet the caller is still inside the range loop and
`Start` has not returned. -/
def sA : Sys := ⟨[], .loop, [], false, 0, 0, none⟩

theorem reach_sA : Reach pA (initSys pA treeA) sA := by
  have h0 : initSys pA treeA =
      ⟨[.recvCmd, .add, .send "/r/a/a", .done], .sendCmd, [], false, 0, 0, none⟩ := by
    decide
  rw [h0]
  refine Reach.head _ (Step.handshake _ _ _ _ _ _) ?_
  refine Reach.head _ (Step.wAdd _ _ _ _ _ _ _) ?_
  refine Reach.head _ (Step.wSend "/r/a/a" [.done] .loop [] false 1 0 none (by decide)) ?_
  refine Reach.head _ (Step.recvSpawn _ _ _ _ _ _ _) ?_
  refine Reach.head _ (Step.cFinish _ _ _ _ _ _ _) ?_
  refine Reach.head _ (Step.wDone _ _ _ _ _ _ _) ?_
  exact Reach.refl _

/-- Claim C1: the spec says `Start` returns to its caller only after the
run fully completes or is aborted, returning nil on a clean full
traversal.  The code never closes the paths channel, so the
`for path := range p.PathsChannel()` loop never terminates: in every
reachable state of every run (any pipeline, any directory tree) `Start`
has not returned at all — in particular it never returns nil after a
clean traversal. -/
theorem start_never_returns (p : Pipeline) (tree : FSNode) (s : Sys)
    (h : Reach p (initSys p tree) s) : s.result = none :=
  (reach_ctrlInv h (initSys_ctrlInv p tree)).2.2

theorem start_never_returns_witness : sA.result = none :=
  start_never_returns pA treeA sA reach_sA

/-- A root directory holding a single regular file `a.png`. -/
def treeD : FSNode := .dir "data" [.file "a.png"]

/-- Claim C2: the spec says the walker emits each regular file's path as
its WorkItem.  The callback instead sends `Join(path, de.Name())`, where
`path` is already the file's full pathname, so each emitted WorkItem has
the basename appended a second time: for the file `/data/a.png` the
walker emits `/data/a.png/a.png`.  The per-file count is nevertheless
correct (one emission per regular file). -/
theorem walker_emits_misjoined_paths :
    sentPaths "/data" treeD = ["/data/a.png/a.png"] ∧
    regularPaths "/data" treeD = ["/data/a.png"] ∧
    sentPaths "/data" treeD ≠ regularPaths "/data" treeD ∧
    (sentPaths "/data" treeD).length = (regularPaths "/data" treeD).length :=
  ⟨by decide, by decide, by decide, sentPaths_length _ _⟩

/-- Claim C3: the spec says each worker decrements the Completion
Barrier by exactly one after completing a WorkItem, and the controller
blocks on the barrier before declaring the run complete.  In the code
the consumer goroutine body is a bare `fmt.Printf` with no `wg.Done()`:
a consumer finishing changes neither the WaitGroup counter nor `Start`'s
result. -/
theorem worker_completion_leaves_barrier_unchanged (p : Pipeline) (s t : Sys)
    (h : Step p Lab.cFinish s t) : t.wg = s.wg ∧ t.result = s.result := by
  cases h
  exact ⟨rfl, rfl⟩

theorem worker_completion_leaves_barrier_unchanged_witness :
    (⟨[], .loop, [], false, 0, 0, none⟩ : Sys).wg =
      (⟨[], .loop, [], false, 0, 1, none⟩ : Sys).wg ∧
    (⟨[], .loop, [], false, 0, 0, none⟩ : Sys).result =
      (⟨[], .loop, [], false, 0, 1, none⟩ : Sys).result :=
  worker_completion_leaves_barrier_unchanged pA _ _
    (Step.cFinish [] .loop [] false 0 0 none)

/-- A pipeline rooted at `/data` with the default bounds. -/
def pB : Pipeline := ⟨TimeZero, TimeZero, .Stopped, "/data", 65536, 100, 20, 100, 0⟩

/-- A root directory containing no regular files at all. -/
def treeB : FSNode := .dir "data" []

/-- The state reached on an empty root: the walker's deferred
`wg.Done()` has run without any preceding `wg.Add`, driving the
WaitGroup counter to -1 (in Go this panics with a negative WaitGroup
counter). -/
def sNeg : Sys := ⟨[], .loop, [], false, -1, 0, none⟩

/-- Claim C4: the spec says the Completion Barrier counter never goes
negative.  On a run over a root containing zero regular files the
walker's deferred `wg.Done()` is not matched by any `wg.Add(1)`, and the
counter reaches -1 (a Go WaitGroup panic). -/
theorem barrier_negative_on_empty_tree :
    Reach pB (initSys pB treeB) sNeg ∧ sNeg.wg < 0 := by
  constructor
  · have h0 : initSys pB treeB =
        ⟨[.recvCmd, .done], .sendCmd, [], false, 0, 0, none⟩ := by decide
    rw [h0]
    refine Reach.head _ (Step.handshake _ _ _ _ _ _) ?_
    refine Reach.head _ (Step.wDone _ _ _ _ _ _ _) ?_
    have h1 : (⟨[], .loop, [], false, 0 - 1, 0, none⟩ : Sys) = sNeg := by decide
    rw [h1]
    exact Reach.refl _
  · decide

/-- Claim C5: for every regular file discovered, the walker registers
one unit with the barrier (`wg.Add(1)`) before sending the WorkItem: the
callback's operation stream is a concatenation of per-file
`[wg.Add(1), send]` blocks, and consequently in every finite program
position (every `take k`) the number of sends performed never exceeds
the number of registrations performed. -/
theorem register_precedes_send (osPath : String) (n : FSNode) (k : Nat) :
    walkEvents osPath n = sendBlocks (sentPaths osPath n) ∧
    countSends ((walkEvents osPath n).take k) ≤
      countAdds ((walkEvents osPath n).take k) := by
  have hb := walkEvents_eq_sendBlocks osPath n
  refine ⟨hb, ?_⟩
  rw [hb]
  exact sendBlocks_take_counts (sentPaths osPath n) k

theorem register_precedes_send_witness :
    walkEvents "/data" treeD = sendBlocks (sentPaths "/data" treeD) ∧
    countSends ((walkEvents "/data" treeD).take 1) ≤
      countAdds ((walkEvents "/data" treeD).take 1) :=
  register_precedes_send "/data" treeD 1

/-- Claim C6: the spec says an unopenable root makes `Start` return a
non-nil RootAccessError (and process no files).  In the code
`loadPathsToChannel` discards `godirwalk.Walk`'s returned error, nothing
propagates to `Start`, and `Start`'s only return statement is
`return nil`: in every reachable state of the failed-root run no non-nil
error has been surfaced — while indeed no file is ever buffered and no
consumer is ever spawned. -/
theorem root_failure_error_dropped (p : Pipeline) (s : Sys) (e : String)
    (h : Reach p (initRootFail p) s) :
    s.result ≠ some (some e) ∧ s.buf = [] ∧ s.active = 0 := by
  have h1 := reach_ctrlInv h (initRootFail_ctrlInv p)
  have h2 := reach_noSendInv h (initRootFail_noSendInv p)
  refine ⟨?_, h2.2.1, h2.2.2⟩
  rw [h1.2.2]
  simp

theorem root_failure_error_dropped_witness :
    (initRootFail pA).result ≠ some (some "RootAccessError") ∧
    (initRootFail pA).buf = [] ∧ (initRootFail pA).active = 0 :=
  root_failure_error_dropped pA (initRootFail pA) "RootAccessError" (Reach.refl _)

/-- Claim C7: the spec says `Start` fails with an InvalidStateError when
the pipeline is not Stopped.  The code's `Start` never reads `p.status`:
started from any non-Stopped status it surfaces no error of any kind in
any reachable state, and the run is step-for-step the same one the
Stopped pipeline would perform. -/
theorem start_ignores_pipeline_status (p : Pipeline) (tree : FSNode) (s : Sys)
    (e : String) (hst : p.status ≠ Status.Stopped)
    (h : Reach p (initSys p tree) s) :
    s.result ≠ some (some e) ∧
    Reach { p with status := Status.Stopped }
      (initSys { p with status := Status.Stopped } tree) s := by
  constructor
  · rw [(reach_ctrlInv h (initSys_ctrlInv p tree)).2.2]
    simp
  · have hinit : initSys { p with status := Status.Stopped } tree = initSys p tree := rfl
    rw [hinit]
    exact @reach_congr p { p with status := Status.Stopped } rfl _ _ h

/-- A pipeline like `pA` but currently Running. -/
def pD : Pipeline := ⟨TimeZero, TimeZero, .Running, "/r", 65536, 100, 20, 100, 0⟩

theorem start_ignores_pipeline_status_witness :
    (initSys pD treeA).result ≠ some (some "InvalidStateError") ∧
    Reach { pD with status := Status.Stopped }
      (initSys { pD with status := Status.Stopped } treeA) (initSys pD treeA) :=
  start_ignores_pipeline_status pD treeA (initSys pD treeA) "InvalidStateError"
    (by decide) (Reach.refl _)

/-- Claim C8, counterexample: the core constructor `New` performs no
ceiling re-validation.  With every bound above its ceiling
(buffer 1024001 > 1024000, queue 257 > 256, workers 51 > 50) `New`
still succeeds and hands back a constructed pipeline. -/
theorem new_accepts_over_ceiling_bounds :
    New "/tmp" 1024001 257 51 =
      Except.ok ⟨TimeZero, TimeZero, .Stopped, "/tmp", 1024001, 257, 51, 257, 0⟩ ∧
    1024001 > kMaxScannerBufferSize ∧ 257 > kMaxPathsChannelSize ∧
    51 > kMaxPathConsumerCount :=
  ⟨rfl, by decide, by decide, by decide⟩

/-- Claim C8, amended: the hard-ceiling checks live in the CLI layer's
`validateCommandLine`, not in the core constructor: whenever a bound
exceeds its ceiling, `validateCommandLine` reports an error and the
`start` command therefore never constructs (let alone starts) a
pipeline. -/
theorem ceilings_enforced_only_in_cli (path : String) (sbs pcs pcc : Nat)
    (h : sbs > kMaxScannerBufferSize ∨ pcs > kMaxPathsChannelSize ∨
      pcc > kMaxPathConsumerCount) :
    (validateCommandLine path sbs pcs pcc).isSome = true ∧
    (cmdStart path sbs pcs pcc).toOption = none := by
  have hv : (validateCommandLine path sbs pcs pcc).isSome = true := by
    unfold validateCommandLine
    split_ifs <;> simp_all [kMaxScannerBufferSize, kMaxPathsChannelSize,
      kMaxPathConsumerCount] <;> omega
  refine ⟨hv, ?_⟩
  obtain ⟨e, he⟩ := Option.isSome_iff_exists.mp hv
  simp [cmdStart, he, Except.toOption]

theorem ceilings_enforced_only_in_cli_witness :
    (validateCommandLine "/tmp" 0 257 0).isSome = true ∧
    (cmdStart "/tmp" 0 257 0).toOption = none :=
  ceilings_enforced_only_in_cli "/tmp" 0 257 0 (by decide)

/-- A pipeline configured with `pathConsumerCount = 2`. -/
def pC : Pipeline := ⟨TimeZero, TimeZero, .Stopped, "/r", 65536, 100, 2, 100, 0⟩

/-- A root directory with three regular files. -/
def treeC : FSNode := .dir "r" [.file "a", .file "b", .file "c"]

/-- A reachable state of the `pC` run in which three consumer goroutines
run concurrently. -/
def sOver : Sys := ⟨[.done], .loop, [], false, 3, 3, none⟩

/-- Claim C9: the spec says at most `pathConsumerCount` workers run the
processing step concurrently.  `Start` ignores `pathConsumerCount`
entirely and spawns one fresh goroutine per received path, so with
`pathConsumerCount = 2` a run over three files reaches a state with
three concurrently active consumers. -/
theorem consumer_goroutines_exceed_pathConsumerCount :
    Reach pC (initSys pC treeC) sOver ∧ sOver.active = 3 ∧
    pC.pathConsumerCount = 2 := by
  refine ⟨?_, rfl, rfl⟩
  have h0 : initSys pC treeC =
      ⟨[.recvCmd, .add, .send "/r/a/a", .add, .send "/r/b/b",
        .add, .send "/r/c/c", .done], .sendCmd, [], false, 0, 0, none⟩ := by
    decide
  rw [h0]
  refine Reach.head _ (Step.handshake _ _ _ _ _ _) ?_
  refine Reach.head _ (Step.wAdd _ _ _ _ _ _ _) ?_
  refine Reach.head _ (Step.wSend "/r/a/a" _ .loop [] false 1 0 none (by decide)) ?_
  refine Reach.head _ (Step.wAdd _ _ _ _ _ _ _) ?_
  refine Reach.head _ (Step.wSend "/r/b/b" _ .loop ["/r/a/a"] false 2 0 none (by decide)) ?_
  refine Reach.head _ (Step.wAdd _ _ _ _ _ _ _) ?_
  refine Reach.head _ (Step.wSend "/r/c/c" _ .loop ["/r/a/a", "/r/b/b"] false 3 0 none
    (by decide)) ?_
  refine Reach.head _ (Step.recvSpawn _ _ _ _ _ _ _) ?_
  refine Reach.head _ (Step.recvSpawn _ _ _ _ _ _ _) ?_
  refine Reach.head _ (Step.recvSpawn _ _ _ _ _ _ _) ?_
  have h1 : (⟨[.done], .loop, [], false, 3, 0 + 1 + 1 + 1, none⟩ : Sys) = sOver := by
    decide
  rw [h1]
  exact Reach.refl _

/-- A lifecycle method invocation: `Abort()` or `Stop()`. -/
inductive LifecycleCmd where
  | abortCmd
  | stopCmd

/-- `Pipeline.Abort` of `pipeline.go`: a value receiver whose body is
`return nil` — it can change no field and reports no error. -/
def Pipeline.Abort (p : Pipeline) : Option String × Pipeline := (none, p)

/-- `Pipeline.Stop` of `pipeline.go`: a value receiver whose body is
`return nil` — it can change no field and reports no error. -/
def Pipeline.Stop (p : Pipeline) : Option String × Pipeline := (none, p)

/-- Run a sequence of `Abort`/`Stop` invocations, collecting each call's
returned error alongside the resulting pipeline. -/
def runLifecycle (p : Pipeline) : List LifecycleCmd → List (Option String) × Pipeline
  | [] => ([], p)
  | c :: cs =>
      let r := match c with
        | .abortCmd => p.Abort
        | .stopCmd => p.Stop
      let rest := runLifecycle r.2 cs
      (r.1 :: rest.1, rest.2)

/-- Claim C10: `Abort` and `Stop` are total no-ops.  Any sequence of
`Abort`/`Stop` calls, in any state and any order, returns nil from every
call and leaves every field of the pipeline unchanged. -/
theorem abort_stop_are_noops (p : Pipeline) (cs : List LifecycleCmd) :
    (runLifecycle p cs).1 = List.replicate cs.length none ∧
    (runLifecycle p cs).2 = p := by
  induction cs with
  | nil => simp [runLifecycle]
  | cons c cs ih =>
      cases c <;>
        simp [runLifecycle, Pipeline.Abort, Pipeline.Stop, ih.1, ih.2,
          List.replicate]

theorem abort_stop_are_noops_witness :
    (runLifecycle pA [.abortCmd, .stopCmd, .abortCmd]).1 =
      List.replicate 3 none ∧
    (runLifecycle pA [.abortCmd, .stopCmd, .abortCmd]).2 = pA :=
  abort_stop_are_noops pA [.abortCmd, .stopCmd, .abortCmd]

end PipelineModel
